import Mathlib

set_option maxRecDepth 4000
set_option linter.unusedVariables false

/-!
# A shallow embedding of `scripts/git_port_to_target.py`

This file embeds the git change-porting script's `apply` command and its
helper functions in Lean.  External effects (git subprocesses, interactive
prompts, the filesystem) are modelled by an environment `Env` that fixes the
result of every external interaction of one invocation, and by a small
filesystem/registration state `FS` that the embedded program threads through.

Conventions:
* A `CmdRes` is the observed result of one `subprocess.run` call site:
  whether the executable was found, its exit code, and its stripped stdout
  and stderr (`run_command` in the script returns `result.stdout.strip()`,
  so the `stdout` field already holds the stripped text).
* Python exceptions are an explicit `Except PyExn` value.  `typer.Exit`
  derives from `click.exceptions.Exit`, which derives from `RuntimeError`
  and hence from `Exception`; this matters for the script's generic
  `except Exception` handler, and is modelled faithfully.
* Filesystem primitives (`tempfile.mkdtemp`, `NamedTemporaryFile`,
  `Path.unlink`, `shutil.rmtree`) are modelled as succeeding; git
  subprocess results are environment-driven.
* Python string methods are modelled by executable char-list functions
  (`pyStrip` for `str.strip()`, `pySplitLines` for `str.split("\n")`,
  `pyReplaceChar` for single-character `str.replace`, `pyLower` for
  `str.lower()`, `pyHasSub` for the `in` substring test).
-/

namespace GitPort

/-- Model of Python `str.strip()` on a char list: drop whitespace from both
ends. -/
def pyStripChars (cs : List Char) : List Char :=
  ((cs.dropWhile Char.isWhitespace).reverse.dropWhile Char.isWhitespace).reverse

/-- Model of Python `str.strip()`. -/
def pyStrip (s : String) : String := String.mk (pyStripChars s.data)

/-- Model of Python `str.split("\n")` on a char list.  Splitting the empty
string yields `[""]`, matching Python. -/
def pySplitLinesChars : List Char → List (List Char)
  | [] => [[]]
  | c :: rest =>
    let r := pySplitLinesChars rest
    if c = '\n' then [] :: r
    else
      match r with
      | [] => [[c]]
      | l :: ls => (c :: l) :: ls

/-- Model of Python `str.split("\n")`. -/
def pySplitLines (s : String) : List String := (pySplitLinesChars s.data).map String.mk

/-- Model of Python `str.replace(a, b)` for single-character `a` and `b`
(the script only uses `target_branch.replace('/', '_')`). -/
def pyReplaceChar (a b : Char) (s : String) : String :=
  String.mk (s.data.map fun c => if c = a then b else c)

/-- Model of Python `str.lower()` (ASCII case folding suffices for the
literal error messages the script inspects). -/
def pyLower (s : String) : String := String.mk (s.data.map Char.toLower)

/-- Model of Python `str.startswith(pre)`. -/
def pyStartsWith (s pre : String) : Bool := List.isPrefixOf pre.data s.data

/-- Does `hay` contain `needle` as a contiguous sublist? -/
def charsHaveSub (needle : List Char) : List Char → Bool
  | [] => needle.isEmpty
  | c :: rest => List.isPrefixOf needle (c :: rest) || charsHaveSub needle rest

/-- Model of the Python substring test `needle in hay`. -/
def pyHasSub (hay needle : String) : Bool := charsHaveSub needle.data hay.data

/-- Exceptions of the embedded program.  `shellError` is the script's
`ShellCommandError`; `typerExit c` is `typer.Exit(code=c)`.  Note that
`typer.Exit` derives from `RuntimeError` (via `click.exceptions.Exit`) and
is therefore caught by `except Exception` handlers. -/
inductive PyExn where
  | shellError
  | typerExit (code : Nat)
  deriving Repr, DecidableEq

/-- The script's `PatchApplyStatus` enum (lines 217-222). -/
inductive PatchApplyStatus where
  | APPLIED_CLEANLY
  | USER_WILL_RESOLVE
  | ABORTED_CONFLICT
  | NO_CHANGES
  | USING_EXTERNAL_TOOL
  deriving Repr, DecidableEq

/-- The user's answer to the existing-branch prompt (lines 415-422):
`replace` is choice "1", `unique` is choice "2" (timestamp suffix),
`abortChoice` is choice "3". -/
inductive BranchChoice where
  | replace
  | unique
  | abortChoice
  deriving Repr, DecidableEq

/-- The user's answer to the conflict menu (lines 637-668): `reject` is
choice "1", `threeway` is "2", `vscode` is "3", `intellij` is "4",
`abortChoice` is "5". -/
inductive ConflictChoice where
  | reject
  | threeway
  | vscode
  | intellij
  | abortChoice
  deriving Repr, DecidableEq

/-- The observed result of one `subprocess.run` call: whether the binary was
found (`FileNotFoundError` otherwise), its return code, and its stripped
stdout/stderr. -/
structure CmdRes where
  found : Bool := true
  exitCode : Nat := 0
  stdout : String := ""
  stderr : String := ""
  deriving Repr, DecidableEq

/-- `run_command` (script lines 72-120): raises `ShellCommandError` when the
executable is missing, or when `check` is true and the return code is
nonzero; otherwise returns the stripped stdout. -/
def run_command (check : Bool) (r : CmdRes) : Except PyExn String :=
  if r.found = false then .error .shellError
  else if check && r.exitCode != 0 then .error .shellError
  else .ok r.stdout

/-- The call succeeded: executable found and exit code zero. -/
def cmdOk (r : CmdRes) : Prop := r.found = true ∧ r.exitCode = 0

/-- Attempt to match the regex `[A-Z]+-\d+` at the head of `cs`.  `[A-Z]+`
is greedy; a shorter run of letters cannot match because the character
after it would again be an uppercase letter, never `-`, so taking the
maximal run is exact. -/
def jiraMatchAt (cs : List Char) : Option (List Char) :=
  let letters := cs.takeWhile Char.isUpper
  if letters.isEmpty then none
  else
    match cs.drop letters.length with
    | '-' :: rest =>
      let digits := rest.takeWhile Char.isDigit
      if digits.isEmpty then none
      else some (letters ++ '-' :: digits)
    | _ => none

/-- Leftmost match of `[A-Z]+-\d+` (the semantics of `re.search`): try each
start position from the left and return the first successful match. -/
def jiraSearch : List Char → Option (List Char)
  | [] => none
  | c :: rest =>
    match jiraMatchAt (c :: rest) with
    | some m => some m
    | none => jiraSearch rest

/-- `extract_jira_id` (script lines 139-146): the first `re.search` match of
`([A-Z]+-\d+)` in `text`, or `None`. -/
def extract_jira_id (text : String) : Option String :=
  (jiraSearch text.data).map String.mk

/-- The environment of one `apply` invocation: the CLI arguments, the answer
to every interactive prompt, and the observed result of every external
command call site, in source order.  Repository reads (such as `git log`)
are treated as pure reads of an unchanging repository, so the two
`get_commits_for_patch` calls observe the same `logRangeCmd`. -/
structure Env where
  /-- positional `target` argument -/
  target : String := ""
  /-- `-m / --message` option -/
  messageOverride : Option String := none
  /-- `-s / --source` option -/
  sourceArg : Option String := none
  /-- `--base` option, defaulted by typer -/
  base : String := "origin/develop"
  /-- `git rev-parse --show-toplevel` (line 126) -/
  revParseToplevel : CmdRes := {}
  /-- `git rev-parse --abbrev-ref HEAD` (line 136); stdout is the current branch -/
  revParseHead : CmdRes := {}
  /-- `git log --pretty=format:%s --no-merges <range>` (line 166) -/
  logRangeCmd : CmdRes := {}
  /-- fallback `git log ... <ref> ^<target>` (line 178) -/
  logFallbackCmd : CmdRes := {}
  /-- `typer.confirm("Proceed with this commit message and operation?")` (line 1081) -/
  confirmProceed : Bool := true
  /-- `git diff <range> --output <patch>` (line 280) -/
  diffCmd : CmdRes := {}
  /-- `patch_file_path.stat().st_size == 0` is false, i.e. the diff wrote content (line 284) -/
  patchNonEmptyAfterDiff : Bool := true
  /-- `git fetch origin <target>` (line 323, check=False) -/
  fetchCmd : CmdRes := {}
  /-- `git rev-parse origin/<target>` (line 338, check=False) -/
  revParseOriginTarget : CmdRes := {}
  /-- `git worktree add --force <path> <ref>` (line 351) -/
  worktreeAddCmd : CmdRes := {}
  /-- `list(worktree_path.glob("*"))` is nonempty (line 367) -/
  worktreeNonEmpty : Bool := true
  /-- `git status` diagnostic inside the empty-worktree branch (line 374, check=False) -/
  statusCmd : CmdRes := {}
  /-- `git branch --list <name>` (line 389, check=False) -/
  branchListCmd : CmdRes := {}
  /-- `git ls-remote --heads origin <name>` (line 397, check=False) -/
  lsRemoteCmd : CmdRes := {}
  /-- answer to the existing-branch prompt (line 415) -/
  branchChoice : BranchChoice := .unique
  /-- `datetime.datetime.now().strftime(...)` at choice "2" (line 442) -/
  timestampA : String := ""
  /-- `git branch -D <name>` (line 428, check=False) -/
  branchDeleteCmd : CmdRes := {}
  /-- `git worktree remove --force <path>` at choice "3" (line 452, check=False) -/
  abortRemoveCmd : CmdRes := {}
  /-- `git switch -c <name>` (line 467) -/
  switchCmd : CmdRes := {}
  /-- timestamp for the already-exists retry (line 474) -/
  timestampB : String := ""
  /-- retried `git switch -c <name>-<timestamp>` (line 479) -/
  switchRetryCmd : CmdRes := {}
  /-- `git branch --show-current` (line 484) -/
  showCurrentCmd : CmdRes := {}
  /-- `git apply --check <patch>` (line 584) -/
  applyCheckCmd : CmdRes := {}
  /-- `git apply <patch>` (line 589) -/
  applyRealCmd : CmdRes := {}
  /-- `git apply --3way <patch>` pre-populating conflicts (line 600, check=False) -/
  pre3wayCmd : CmdRes := {}
  /-- `git diff --name-only --diff-filter=U` before the menu (line 606, check=False) -/
  preConflictCmd : CmdRes := {}
  /-- answer to the conflict menu (line 664) -/
  conflictChoice : ConflictChoice := .threeway
  /-- `git apply --reject <patch>` (line 686, check=True) -/
  rejectCmd : CmdRes := {}
  /-- `git apply --3way <patch>` at choice "2" (line 702) -/
  threeWayCmd : CmdRes := {}
  /-- `git diff --name-only --diff-filter=U` at choice "2" (line 708, check=False) -/
  conflictListCmd : CmdRes := {}
  /-- editor launch (line 541, check=False) -/
  editorCmd : CmdRes := {}
  /-- `git add -A` (line 504) -/
  addCmd : CmdRes := {}
  /-- `git commit -m <msg>` (line 505) -/
  commitCmd : CmdRes := {}
  /-- `git push origin <branch>` (line 512) -/
  pushCmd : CmdRes := {}
  /-- `typer.confirm("Continue anyway?")` after a push failure (line 526) -/
  continueAfterPushFail : Bool := true
  /-- `git worktree remove --force <path>` inside `_cleanup_worktree` (line 944) -/
  finalRemoveCmd : CmdRes := {}

/-- The observable artifact state of one invocation: the temporary patch
file, the `mkdtemp` worktree directory, git's worktree registration, and
the commit/push state of the new branch.  `...Ever...` fields record that
the artifact was created at some point, and `confirmSnapshot` records which
artifacts existed at the moment the commit-message confirmation prompt was
shown. -/
structure FS where
  patchExists : Bool := false
  patchEverCreated : Bool := false
  patchHasContent : Bool := false
  wtDirExists : Bool := false
  wtDirEverCreated : Bool := false
  wtRegistered : Bool := false
  wtEverRegistered : Bool := false
  rejOnDisk : Bool := false
  branchDeleteIssued : Bool := false
  commits : Nat := 0
  pushedBranch : Option String := none
  confirmSnapshot : Option (Bool × Bool) := none
  deriving Repr, DecidableEq

/-- Program state: the artifact state plus the module-level
`WORKTREE_SHOULD_BE_KEPT` flag (line 48), false at process start. -/
structure St where
  fs : FS := {}
  keepGlobal : Bool := false
  deriving Repr, DecidableEq

/-- `get_git_repo_root` (lines 123-131): on `ShellCommandError` it raises
`typer.Exit(code=1)`.  This call happens before the `try` block of `apply`,
so this exception is the one `typer.Exit` that actually reaches typer. -/
def get_git_repo_root (env : Env) : Except PyExn String :=
  match run_command true env.revParseToplevel with
  | .ok out => .ok out
  | .error _ => .error (.typerExit 1)

/-- `_resolve_source_branch` (lines 244-252): the `-s` argument if given,
otherwise the current branch from `git rev-parse --abbrev-ref HEAD`. -/
def _resolve_source_branch (env : Env) : Except PyExn String :=
  match env.sourceArg with
  | some s => .ok s
  | none => run_command true env.revParseHead

/-- `get_commits_for_patch` (lines 149-213).  On a `ShellCommandError`
whose stderr mentions "unknown revision or path not in the working tree"
it returns `[]`; on empty log output it either takes the fallback log
(only when the range argument has no "..") or returns `[]`; otherwise it
splits the output into subject lines. -/
def get_commits_for_patch (env : Env) (diff_range_or_ref target_branch_for_fallback : String) :
    Except PyExn (List String) :=
  match run_command true env.logRangeCmd with
  | .error e =>
    if env.logRangeCmd.found &&
        pyHasSub (pyLower env.logRangeCmd.stderr) "unknown revision or path not in the working tree" then
      .ok []
    else .error e
  | .ok commit_output =>
    if commit_output = "" then
      if pyHasSub diff_range_or_ref ".." = false then
        match run_command false env.logFallbackCmd with
        | .error e => .error e
        | .ok fallback =>
          if fallback = "" then .ok []
          else .ok (pySplitLines fallback)
      else .ok []
    else .ok (pySplitLines commit_output)

/-- The for-loop of `_prepare_operation_details` step 2 (lines 867-873):
scan the commit subjects in log order and take the first JIRA match. -/
def scanCommitsForJira : List String → Option String
  | [] => none
  | msg :: rest =>
    match extract_jira_id msg with
    | some j => some j
    | none => scanCommitsForJira rest

/-- The JIRA-resolution part of `_prepare_operation_details`
(lines 846-885): source ref name first, then commit subjects, then the
target branch name. -/
def prepareJira (env : Env) (original_source_ref_name effective_diff_source target_branch : String) :
    Except PyExn (Option String) :=
  match extract_jira_id original_source_ref_name with
  | some j => .ok (some j)
  | none =>
    match get_commits_for_patch env effective_diff_source target_branch with
    | .error e => .error e
    | .ok commits =>
      match scanCommitsForJira commits with
      | some j => .ok (some j)
      | none => .ok (extract_jira_id target_branch)

/-- Modelled from the spec (section 4.2 contract), for comparison with the
code: "returns the first regex match of pattern `[A-Z]+-\d+` found by
scanning, in order: (a) literal source ref name, (b) each commit subject
line ..., (c) literal target branch name" — a single left-to-right scan of
that text sequence. -/
def specTicketScan : List String → Option String
  | [] => none
  | t :: ts =>
    match extract_jira_id t with
    | some j => some j
    | none => specTicketScan ts

/-- The script's `PreparedOperationDetails` pydantic model (lines 61-68);
the two temporary paths are represented by the `FS` artifact flags. -/
structure PreparedOperationDetails where
  final_commit_message : String
  jira_id : String
  deriving Repr, DecidableEq

/-- `_prepare_operation_details` (lines 838-933): resolve the JIRA id
(fatal `typer.Exit(code=1)` when none is found, before any artifact is
created), build the commit message, then create the `mkdtemp` worktree
directory and the empty temporary patch file. -/
def _prepare_operation_details (env : Env)
    (original_source_ref_name effective_diff_source target_branch : String)
    (message_override : Option String) (fs : FS) :
    Except PyExn PreparedOperationDetails × FS :=
  match prepareJira env original_source_ref_name effective_diff_source target_branch with
  | .error e => (.error e, fs)
  | .ok none => (.error (.typerExit 1), fs)
  | .ok (some jira_id) =>
    match get_commits_for_patch env effective_diff_source target_branch with
    | .error e => (.error e, fs)
    | .ok commits_for_final_msg =>
      let commit_list_str :=
        if commits_for_final_msg.isEmpty then
          "No individual commits (changes are uncommitted or patch base is HEAD)."
        else
          String.intercalate "\n" (commits_for_final_msg.map (fun c => "- " ++ c))
      let final_commit_message :=
        match message_override with
        | some m => m
        | none =>
          jira_id ++ ": Apply changes from '" ++ original_source_ref_name ++ "' to '" ++
            target_branch ++ "'\n\nThis commit squashes the following changes:\n" ++ commit_list_str
      (.ok { final_commit_message := final_commit_message, jira_id := jira_id },
       { fs with wtDirExists := true, wtDirEverCreated := true,
                 patchExists := true, patchEverCreated := true })

/-- `_create_patch_file` (lines 273-290): run the diff into the patch file
and report whether the file has content. -/
def _create_patch_file (env : Env) (fs : FS) : Except PyExn Bool × FS :=
  match run_command true env.diffCmd with
  | .error e => (.error e, fs)
  | .ok _ =>
    let fs := { fs with patchHasContent := env.patchNonEmptyAfterDiff }
    if env.patchNonEmptyAfterDiff = false then (.ok false, fs) else (.ok true, fs)

/-- The checkout-reference selection of `_setup_worktree` (lines 331-347).
The `git rev-parse origin/<target>` probe runs with `check=False`, so
`run_command` raises only when the git binary itself is missing; a nonzero
exit code (ref does not resolve) does NOT raise, and the `except` fallback
to the local ref is unreachable in that case. -/
def selectBranchRef (target_branch : String) (revParseOriginTarget : CmdRes) : String :=
  if pyStartsWith target_branch "origin/" then target_branch
  else
    match run_command false revParseOriginTarget with
    | .ok _ => "origin/" ++ target_branch
    | .error _ => target_branch

/-- Modelled from the spec (section 4.4): "Prefers `origin/<targetBranch>`
as the checkout reference when it resolves; otherwise falls back to the
local ref." -/
def specBranchRef (target_branch : String) (revParseOriginTarget : CmdRes) : String :=
  if pyStartsWith target_branch "origin/" then target_branch
  else if revParseOriginTarget.found && revParseOriginTarget.exitCode == 0 then
    "origin/" ++ target_branch
  else target_branch

/-- The branch verification at the end of `_setup_worktree` (lines
483-489): `git branch --show-current` must equal the new branch name,
otherwise `typer.Exit(code=1)`. -/
def verifyBranch (env : Env) (new_branch_name : String) (st : St) :
    Except PyExn String × St :=
  match run_command true env.showCurrentCmd with
  | .error e => (.error e, st)
  | .ok current_branch =>
    if pyStrip current_branch = new_branch_name then (.ok new_branch_name, st)
    else (.error (.typerExit 1), st)

/-- `_setup_worktree` (lines 293-494): remove a pre-existing directory,
best-effort fetch, pick the checkout ref, `git worktree add --force`,
verify the directory, derive `feature/<jira>-<target with / -> _>`, handle
an existing branch via the prompt, `git switch -c`, and verify the active
branch. -/
def _setup_worktree (env : Env) (target_branch jira_id : String) (st : St) :
    Except PyExn String × St :=
  -- proactive `shutil.rmtree` of the existing mkdtemp directory (lines 302-318)
  let st := if st.fs.wtDirExists then
      { st with fs := { st.fs with wtDirExists := false, rejOnDisk := false } }
    else st
  -- best-effort `git fetch origin <target>` (line 323, check=False)
  let _fetch := run_command false env.fetchCmd
  let branch_ref := selectBranchRef target_branch env.revParseOriginTarget
  -- `git worktree add --force` (line 351); ShellCommandError -> typer.Exit(1) (line 357)
  match run_command true env.worktreeAddCmd with
  | .error _ => (.error (.typerExit 1), st)
  | .ok _ =>
    let fs1 := { st.fs with wtDirExists := true, wtDirEverCreated := true,
                            wtRegistered := true, wtEverRegistered := true }
    let st := { st with fs := fs1 }
    if st.fs.wtDirExists = false then (.error (.typerExit 1), st)  -- line 360
    else if env.worktreeNonEmpty = false then
      -- empty worktree: best-effort `git status`, then typer.Exit(1) (lines 367-380)
      let _status := run_command false env.statusCmd
      (.error (.typerExit 1), st)
    else
      let base_branch_name := "feature/" ++ jira_id ++ "-" ++ pyReplaceChar '/' '_' target_branch
      -- existing-branch check, local then remote (lines 386-406); any
      -- ShellCommandError makes branch_exists false
      let branch_exists :=
        match run_command false env.branchListCmd with
        | .error _ => false
        | .ok local_branch_output =>
          if pyStrip local_branch_output = "" then
            match run_command false env.lsRemoteCmd with
            | .error _ => false
            | .ok remote_branch_output =>
              if pyStrip remote_branch_output = "" then false else true
          else true
      match (if branch_exists then
              match env.branchChoice with
              | .replace =>
                -- choice "1": delete the local branch (check=False), reuse the name
                let _del := run_command false env.branchDeleteCmd
                (Except.ok base_branch_name,
                 { st with fs := { st.fs with branchDeleteIssued := true } })
              | .unique =>
                -- choice "2": timestamp-suffixed name
                (Except.ok (base_branch_name ++ "-" ++ env.timestampA), st)
              | .abortChoice =>
                -- choice "3": best-effort worktree remove + rmtree, then typer.Exit(1)
                let removed := env.abortRemoveCmd.found && env.abortRemoveCmd.exitCode == 0
                (Except.error (PyExn.typerExit 1),
                 { st with fs := { st.fs with
                     wtRegistered := st.fs.wtRegistered && !removed,
                     wtDirExists := false, rejOnDisk := false } })
            else (Except.ok base_branch_name, st)) with
      | (.error e, st2) => (.error e, st2)
      | (.ok new_branch_name, st2) =>
        -- `git switch -c <name>` (line 467); on an "already exists" error,
        -- retry once with a timestamp suffix (lines 468-481)
        match run_command true env.switchCmd with
        | .ok _ => verifyBranch env new_branch_name st2
        | .error e =>
          if pyHasSub env.switchCmd.stderr "already exists" then
            let retry_name := base_branch_name ++ "-" ++ env.timestampB
            match run_command true env.switchRetryCmd with
            | .ok _ => verifyBranch env retry_name st2
            | .error e2 => (.error e2, st2)
          else (.error e, st2)

/-- The conflict menu inside the `except ShellCommandError` handler of
`_apply_patch_and_handle_conflicts` (lines 592-827).  A `.rej` file exists
exactly when `git apply --reject` rejected a hunk, which is also exactly
when that command exits nonzero; because the command runs with the default
`check=True`, that nonzero exit raises `ShellCommandError`, which — being
raised inside an `except` handler of the same `try` — propagates out of
the function. -/
def _handle_conflict_menu (env : Env) (st : St) : Except PyExn PatchApplyStatus × St :=
  -- best-effort 3-way pre-apply and conflict listing (lines 595-618);
  -- all failures are swallowed by the inner `except Exception`
  let _pre := run_command false env.pre3wayCmd
  let _preList := run_command false env.preConflictCmd
  match env.conflictChoice with
  | .reject =>
    -- choice "1": `git apply --reject` with check=True (line 686)
    let st := { st with fs := { st.fs with
        rejOnDisk := env.rejectCmd.found && env.rejectCmd.exitCode != 0 } }
    match run_command true env.rejectCmd with
    | .error e => (.error e, st)
    | .ok _ => (.ok .USER_WILL_RESOLVE, st)
  | .threeway =>
    -- choice "2": `git apply --3way`; conflicts or not, and even on
    -- failure of the merge itself, the result is USER_WILL_RESOLVE
    -- (lines 698-751)
    match run_command true env.threeWayCmd with
    | .error _ => (.ok .USER_WILL_RESOLVE, st)
    | .ok _ =>
      let _list := run_command false env.conflictListCmd
      (.ok .USER_WILL_RESOLVE, st)
  | .vscode =>
    -- choice "3": set WORKTREE_SHOULD_BE_KEPT, launch editor best-effort
    -- (`_open_external_editor` always reports success), USER_WILL_RESOLVE
    -- (lines 752-787)
    let st := { st with keepGlobal := true }
    if st.fs.wtDirExists = false then (.ok .ABORTED_CONFLICT, st)
    else (.ok .USER_WILL_RESOLVE, st)
  | .intellij =>
    -- choice "4": same as choice "3" with the other editor (lines 788-824)
    let st := { st with keepGlobal := true }
    if st.fs.wtDirExists = false then (.ok .ABORTED_CONFLICT, st)
    else (.ok .USER_WILL_RESOLVE, st)
  | .abortChoice =>
    -- choice "5" (lines 825-827)
    (.ok .ABORTED_CONFLICT, st)

/-- `_apply_patch_and_handle_conflicts` (lines 565-835): dry-run check,
clean apply on success; on any `ShellCommandError` from the check or the
real apply, fall into the conflict menu. -/
def _apply_patch_and_handle_conflicts (env : Env) (st : St) :
    Except PyExn PatchApplyStatus × St :=
  if st.fs.wtDirExists = false then (.ok .ABORTED_CONFLICT, st)  -- line 576
  else
    match run_command true env.applyCheckCmd with
    | .ok _ =>
      match run_command true env.applyRealCmd with
      | .ok _ => (.ok .APPLIED_CLEANLY, st)
      | .error _ => _handle_conflict_menu env st
    | .error _ => _handle_conflict_menu env st

/-- `_commit_and_push_changes` (lines 497-527): stage, commit, push; a push
failure is a warning, and only becomes fatal if the user declines
"Continue anyway?". -/
def _commit_and_push_changes (env : Env) (new_branch_in_worktree : String) (st : St) :
    Except PyExn Unit × St :=
  match run_command true env.addCmd with
  | .error e => (.error e, st)
  | .ok _ =>
    match run_command true env.commitCmd with
    | .error e => (.error e, st)
    | .ok _ =>
      let st := { st with fs := { st.fs with commits := st.fs.commits + 1 } }
      match run_command true env.pushCmd with
      | .ok _ => (.ok (), { st with fs := { st.fs with pushedBranch := some new_branch_in_worktree } })
      | .error e =>
        if env.continueAfterPushFail then (.ok (), st)
        else (.error e, st)

/-- The result of the `try` body of `apply` (lines 1036-1179): the Python
value or exception, the program state, and the local flags the `finally`
block consults (`op_details is not None`, `cleanup_worktree_on_exit`,
`keep_worktree`, `patch_status`). -/
structure BodyRes where
  res : Except PyExn Unit
  st : St
  opCreated : Bool
  cleanupOnExit : Bool
  keepWorktree : Bool
  patchStatus : Option PatchApplyStatus
  deriving Repr

/-- The `match patch_status` of `apply` (lines 1141-1171). -/
def applyAfterStatus (env : Env) (new_branch_in_worktree : String)
    (status : PatchApplyStatus) (st : St) : BodyRes :=
  match status with
  | .APPLIED_CLEANLY =>
    match _commit_and_push_changes env new_branch_in_worktree st with
    | (.error e, st2) =>
      { res := .error e, st := st2, opCreated := true, cleanupOnExit := true,
        keepWorktree := false, patchStatus := some .APPLIED_CLEANLY }
    | (.ok _, st2) =>
      { res := .ok (), st := st2, opCreated := true, cleanupOnExit := true,
        keepWorktree := false, patchStatus := some .APPLIED_CLEANLY }
  | .USER_WILL_RESOLVE =>
    -- lines 1156-1166: keep the worktree, set the global flag, return
    { res := .ok (), st := { st with keepGlobal := true }, opCreated := true,
      cleanupOnExit := false, keepWorktree := true,
      patchStatus := some .USER_WILL_RESOLVE }
  | .ABORTED_CONFLICT =>
    -- lines 1167-1171: typer.Exit(code=1)
    { res := .error (.typerExit 1), st := st, opCreated := true, cleanupOnExit := true,
      keepWorktree := false, patchStatus := some .ABORTED_CONFLICT }
  | s =>
    -- statuses without a case: the Python `match` falls through
    { res := .ok (), st := st, opCreated := true, cleanupOnExit := true,
      keepWorktree := false, patchStatus := some s }

/-- `apply` from the worktree setup onwards (lines 1119-1171). -/
def applyAfterConfirmContent (env : Env) (details : PreparedOperationDetails) (st : St) : BodyRes :=
  match _setup_worktree env env.target details.jira_id st with
  | (.error e, st2) =>
    -- cleanup_worktree_on_exit is still False: line 1125 not reached
    { res := .error e, st := st2, opCreated := true, cleanupOnExit := false,
      keepWorktree := false, patchStatus := none }
  | (.ok new_branch_in_worktree, st2) =>
    match _apply_patch_and_handle_conflicts env st2 with
    | (.error e, st3) =>
      -- the assignment `patch_status = ...` (line 1130) did not complete
      { res := .error e, st := st3, opCreated := true, cleanupOnExit := true,
        keepWorktree := false, patchStatus := none }
    | (.ok status, st3) => applyAfterStatus env new_branch_in_worktree status st3

/-- `apply` from the patch-file creation onwards (lines 1092-1105). -/
def applyAfterConfirm (env : Env) (details : PreparedOperationDetails) (st : St) : BodyRes :=
  match _create_patch_file env st.fs with
  | (.error e, fs2) =>
    { res := .error e, st := { st with fs := fs2 }, opCreated := true, cleanupOnExit := false,
      keepWorktree := false, patchStatus := none }
  | (.ok patch_has_content, fs2) =>
    let st := { st with fs := fs2 }
    if patch_has_content = false then
      -- empty patch: unlink the patch file, rmtree the mkdtemp directory,
      -- raise typer.Exit() with the default code 0 (lines 1096-1105)
      let st := { st with fs := { st.fs with patchExists := false, wtDirExists := false } }
      { res := .error (.typerExit 0), st := st, opCreated := true, cleanupOnExit := false,
        keepWorktree := false, patchStatus := none }
    else applyAfterConfirmContent env details st

/-- `apply` from the commit-message confirmation onwards (lines
1072-1090).  The prompt records a snapshot of which artifacts exist at the
moment it is shown; declining unlinks the patch file, removes the mkdtemp
directory and raises `typer.Exit()` (code 0). -/
def applyAfterPrepare (env : Env) (details : PreparedOperationDetails) (st : St) : BodyRes :=
  let st := { st with fs := { st.fs with
      confirmSnapshot := some (st.fs.patchExists, st.fs.wtDirExists) } }
  if env.confirmProceed = false then
    let st := { st with fs := { st.fs with patchExists := false, wtDirExists := false } }
    { res := .error (.typerExit 0), st := st, opCreated := true, cleanupOnExit := false,
      keepWorktree := false, patchStatus := none }
  else applyAfterConfirm env details st

/-- `apply` from the resolved source onwards (lines 1038-1067): explicit
range detection, the source-equals-target check, and
`_prepare_operation_details`. -/
def applyResolved (env : Env) (resolved_source_ref_name : String) : BodyRes :=
  let is_explicit_range := pyHasSub resolved_source_ref_name ".."
  let effective_diff_source :=
    if is_explicit_range then resolved_source_ref_name
    else env.base ++ ".." ++ resolved_source_ref_name
  if resolved_source_ref_name = env.target then
    -- line 1059: typer.Exit(code=1)
    { res := .error (.typerExit 1), st := {}, opCreated := false, cleanupOnExit := false,
      keepWorktree := false, patchStatus := none }
  else
    match _prepare_operation_details env resolved_source_ref_name effective_diff_source
        env.target env.messageOverride ({} : FS) with
    | (.error e, fs) =>
      { res := .error e, st := { fs := fs }, opCreated := false, cleanupOnExit := false,
        keepWorktree := false, patchStatus := none }
    | (.ok details, fs) => applyAfterPrepare env details { fs := fs }

/-- The whole `try` body of `apply` (lines 1036-1179). -/
def applyBody (env : Env) : BodyRes :=
  match _resolve_source_branch env with
  | .error e =>
    { res := .error e, st := {}, opCreated := false, cleanupOnExit := false,
      keepWorktree := false, patchStatus := none }
  | .ok resolved_source_ref_name => applyResolved env resolved_source_ref_name

/-- The `finally` block of `apply` (lines 1228-1293): worktree cleanup
unless a keep flag is set, a residual directory removal, and patch-file
deletion unless `patch_status == USER_WILL_RESOLVE`. -/
def applyFinally (env : Env) (b : BodyRes) : St :=
  let st := b.st
  if b.opCreated = false then st
  else
    let keep := b.keepWorktree || st.keepGlobal
    let st :=
      if keep = false then
        -- `_cleanup_worktree` (lines 936-967): `git worktree remove --force`
        -- with all its failures downgraded to warnings
        let st :=
          if b.cleanupOnExit && st.fs.wtDirExists then
            if env.finalRemoveCmd.found && env.finalRemoveCmd.exitCode == 0 then
              { st with fs := { st.fs with wtRegistered := false, wtDirExists := false,
                                           rejOnDisk := false } }
            else st
          else st
        -- residual `shutil.rmtree` of the mkdtemp directory (lines 1256-1264)
        if st.fs.wtDirExists then
          { st with fs := { st.fs with wtDirExists := false, rejOnDisk := false } }
        else st
      else st
    -- patch-file cleanup (lines 1275-1293)
    if st.fs.patchExists then
      if b.patchStatus = some PatchApplyStatus.USER_WILL_RESOLVE then st
      else { st with fs := { st.fs with patchExists := false } }
    else st

/-- Exit code of an exception that escapes the command function: typer
turns `typer.Exit(code)` into that code; any other exception becomes a
Python traceback with exit code 1. -/
def uncaughtExitCode : PyExn → Nat
  | .typerExit c => c
  | .shellError => 1

/-- The observable outcome of one invocation of the `apply` command. -/
structure Outcome where
  exitCode : Nat
  fs : FS
  patchStatus : Option PatchApplyStatus
  deriving Repr, DecidableEq

/-- The `apply` command (lines 970-1293).  `get_git_repo_root` runs before
the `try` block, so its `typer.Exit(1)` reaches typer and exits with code
1.  Every exception raised inside the `try` block — including every
`typer.Exit`, since `typer.Exit` derives from `RuntimeError` — is caught
by one of the `except` clauses (`ShellCommandError`,
`subprocess.CalledProcessError`, `KeyboardInterrupt`, `Exception`), none
of which re-raises or records an exit code; after the `finally` block the
function returns normally, so the process exits with code 0. -/
def applyCmd (env : Env) : Outcome :=
  match get_git_repo_root env with
  | .error e => { exitCode := uncaughtExitCode e, fs := {}, patchStatus := none }
  | .ok _ =>
    let b := applyBody env
    let st := applyFinally env b
    { exitCode := 0, fs := st.fs, patchStatus := b.patchStatus }

/-! ## Helper lemmas -/

theorem run_command_ok (check : Bool) (r : CmdRes) (h1 : r.found = true) (h2 : r.exitCode = 0) :
    run_command check r = .ok r.stdout := by
  simp [run_command, h1, h2]

theorem run_command_checkfalse_ok (r : CmdRes) (h1 : r.found = true) :
    run_command false r = .ok r.stdout := by
  simp [run_command, h1]

theorem run_command_fail (r : CmdRes) (h1 : r.found = true) (h2 : r.exitCode ≠ 0) :
    run_command true r = .error .shellError := by
  simp [run_command, h1, h2]

theorem specTicketScan_append (l : List String) (t : String) :
    specTicketScan (l ++ [t]) =
      (match scanCommitsForJira l with
       | some j => some j
       | none => extract_jira_id t) := by
  induction l with
  | nil =>
    simp only [List.nil_append, specTicketScan, scanCommitsForJira]
    cases extract_jira_id t <;> rfl
  | cons x xs ih =>
    simp only [List.cons_append, specTicketScan, scanCommitsForJira]
    cases extract_jira_id x <;> simp [ih]

theorem prepare_ok (env : Env) (src eff tgt : String) (mo : Option String) (fs : FS)
    (j : String) (commits : List String)
    (hjira : prepareJira env src eff tgt = .ok (some j))
    (hcommits : get_commits_for_patch env eff tgt = .ok commits) :
    ∃ msg, _prepare_operation_details env src eff tgt mo fs =
      (.ok { final_commit_message := msg, jira_id := j },
       { fs with wtDirExists := true, wtDirEverCreated := true,
                 patchExists := true, patchEverCreated := true }) := by
  unfold _prepare_operation_details
  rw [hjira, hcommits]
  exact ⟨_, rfl⟩

theorem menu_threeway (env : Env) (hchoice : env.conflictChoice = .threeway) (st : St) :
    _handle_conflict_menu env st = (.ok .USER_WILL_RESOLVE, st) := by
  unfold _handle_conflict_menu
  rw [hchoice]
  cases run_command true env.threeWayCmd <;> rfl

theorem dash_append_ne (b ts : String) : b ++ "-" ++ ts ≠ b := by
  intro h
  have hl := congrArg String.length h
  rw [String.length_append, String.length_append] at hl
  have hone : "-".length = 1 := rfl
  rw [hone] at hl
  omega

/-! ## Claim theorems -/

/-- Claim C1.  The claim says a fatal error of the enumerated kinds makes
the process exit with code 1.  The code disagrees: here the user aborts at
the conflict menu (choice 5), the `match` raises `typer.Exit(code=1)`
(line 1171), but that exception — `typer.Exit` derives from
`RuntimeError` — is caught by the generic `except Exception` handler of
`apply` (line 1213), which does not re-raise, so the command function
returns normally and the process exits with code 0.  The
`ABORTED_CONFLICT` patch status confirms this run went through the
conflict-abort path, and `wtEverRegistered = true` shows side effects had
already happened, so the exit-0-for-early-abort clause does not apply. -/
theorem c1_conflict_abort_exits_zero :
    (applyCmd { target := "main", sourceArg := some "ABC-123-x",
                applyCheckCmd := { exitCode := 1 },
                conflictChoice := .abortChoice,
                showCurrentCmd := { stdout := "feature/ABC-123-main" } }).exitCode = 0 ∧
    (applyCmd { target := "main", sourceArg := some "ABC-123-x",
                applyCheckCmd := { exitCode := 1 },
                conflictChoice := .abortChoice,
                showCurrentCmd := { stdout := "feature/ABC-123-main" } }).patchStatus =
      some .ABORTED_CONFLICT ∧
    (applyCmd { target := "main", sourceArg := some "ABC-123-x",
                applyCheckCmd := { exitCode := 1 },
                conflictChoice := .abortChoice,
                showCurrentCmd := { stdout := "feature/ABC-123-main" } }).fs.wtEverRegistered =
      true :=
  ⟨rfl, rfl, rfl⟩

/-- Claim C2.  Source ref "mybranch", target "main", no commit subjects:
the ticket pattern matches nowhere (the first two conjuncts), and indeed
no worktree directory is ever created (`mkdtemp` is only reached after the
JIRA check in `_prepare_operation_details`) and no `git worktree add` ever
runs — but the process exits with code 0, not 1 as the claim states,
because the `typer.Exit(code=1)` raised at line 894 is swallowed by
`apply`'s `except Exception` handler. -/
theorem c2_no_ticket_exits_zero_no_worktree :
    extract_jira_id "mybranch" = none ∧
    extract_jira_id "main" = none ∧
    (applyCmd { target := "main", sourceArg := some "mybranch" }).fs.wtDirEverCreated = false ∧
    (applyCmd { target := "main", sourceArg := some "mybranch" }).fs.wtEverRegistered = false ∧
    (applyCmd { target := "main", sourceArg := some "mybranch" }).fs.patchEverCreated = false ∧
    (applyCmd { target := "main", sourceArg := some "mybranch" }).exitCode = 0 :=
  ⟨rfl, rfl, rfl, rfl, rfl, rfl⟩

/-- Claim C3.  Resolved source equals the target ("main" = "main"): the
check at line 1053 fires before `_prepare_operation_details`, so no patch
file and no worktree directory is ever created — but the
`typer.Exit(code=1)` of line 1059 is swallowed by the `except Exception`
handler and the process exits with code 0, not nonzero as the claim
states. -/
theorem c3_source_equals_target_exits_zero :
    (applyCmd { target := "main", sourceArg := some "main" }).fs.patchEverCreated = false ∧
    (applyCmd { target := "main", sourceArg := some "main" }).fs.wtDirEverCreated = false ∧
    (applyCmd { target := "main", sourceArg := some "main" }).fs.wtEverRegistered = false ∧
    (applyCmd { target := "main", sourceArg := some "main" }).exitCode = 0 :=
  ⟨rfl, rfl, rfl, rfl⟩

/-- Claim C4.  For every invocation that reaches patch creation and whose
`git diff` writes zero bytes: no `git worktree add` is ever executed, the
temporary patch file and the `mkdtemp` directory are both created and then
removed (lines 1096-1105), and the process exits with code 0. -/
theorem c4_empty_patch_no_worktree_exit_zero (env : Env) (src eff j : String)
    (commits : List String)
    (hroot : cmdOk env.revParseToplevel)
    (hres : _resolve_source_branch env = .ok src)
    (hneq : src ≠ env.target)
    (heff : eff = if pyHasSub src ".." = true then src else env.base ++ ".." ++ src)
    (hjira : prepareJira env src eff env.target = .ok (some j))
    (hcommits : get_commits_for_patch env eff env.target = .ok commits)
    (hconfirm : env.confirmProceed = true)
    (hdiff : cmdOk env.diffCmd)
    (hempty : env.patchNonEmptyAfterDiff = false) :
    (applyCmd env).exitCode = 0 ∧
    (applyCmd env).fs.wtEverRegistered = false ∧
    (applyCmd env).fs.patchEverCreated = true ∧
    (applyCmd env).fs.patchExists = false ∧
    (applyCmd env).fs.wtDirEverCreated = true ∧
    (applyCmd env).fs.wtDirExists = false := by
  subst heff
  have h1 : get_git_repo_root env = .ok env.revParseToplevel.stdout := by
    unfold get_git_repo_root
    rw [run_command_ok _ _ hroot.1 hroot.2]
  obtain ⟨msg, hprep⟩ := prepare_ok env src _ env.target env.messageOverride {} j commits
    hjira hcommits
  have hbody : applyBody env =
      { res := .error (.typerExit 0),
        st := { fs := { patchEverCreated := true, wtDirEverCreated := true,
                        confirmSnapshot := some (true, true) } },
        opCreated := true, cleanupOnExit := false, keepWorktree := false,
        patchStatus := none } := by
    unfold applyBody
    rw [hres]
    unfold applyResolved
    simp only [if_neg hneq, hprep]
    unfold applyAfterPrepare applyAfterConfirm _create_patch_file
    rw [run_command_ok _ _ hdiff.1 hdiff.2]
    simp [hconfirm, hempty]
  unfold applyCmd
  rw [h1, hbody]
  simp [applyFinally]

/-- Claim C4, witness: source "ABC-1-x", target "main", empty diff. -/
theorem c4_empty_patch_no_worktree_exit_zero_witness :
    (applyCmd { target := "main", sourceArg := some "ABC-1-x",
                patchNonEmptyAfterDiff := false }).exitCode = 0 ∧
    (applyCmd { target := "main", sourceArg := some "ABC-1-x",
                patchNonEmptyAfterDiff := false }).fs.wtEverRegistered = false := by
  have h := c4_empty_patch_no_worktree_exit_zero
    { target := "main", sourceArg := some "ABC-1-x", patchNonEmptyAfterDiff := false }
    "ABC-1-x" _ "ABC-1" [] ⟨rfl, rfl⟩ rfl (by decide) rfl rfl rfl rfl ⟨rfl, rfl⟩ rfl
  exact ⟨h.1, h.2.1⟩

/-- Claim C5.  The JIRA-id resolution of `_prepare_operation_details` is
exactly the first match of a single left-to-right scan over: the resolved
source ref name, then the commit subjects of the diff range in log order,
then the target branch name (`specTicketScan`, written from the spec).
In particular, a match in the source ref name always wins, whatever the
commit subjects or the target name contain — the second conjunct needs no
assumption at all about the log. -/
theorem c5_ticket_extraction_priority (env : Env) (src eff tgt : String)
    (subjects : List String)
    (hcommits : get_commits_for_patch env eff tgt = .ok subjects) :
    prepareJira env src eff tgt = .ok (specTicketScan (src :: (subjects ++ [tgt]))) ∧
    (∀ j, extract_jira_id src = some j → prepareJira env src eff tgt = .ok (some j)) := by
  constructor
  · unfold prepareJira
    cases hsrc : extract_jira_id src with
    | some j => simp [specTicketScan, hsrc]
    | none =>
      rw [hcommits]
      simp only [specTicketScan, hsrc]
      rw [specTicketScan_append]
      cases scanCommitsForJira subjects <;> simp
  · intro j hj
    unfold prepareJira
    rw [hj]

/-- Claim C5, witness: the source ref "ABC-123-x" wins over the commit
subject "DEF-456 fix" and the target "GHI-9". -/
theorem c5_ticket_extraction_priority_witness :
    prepareJira { logRangeCmd := { stdout := "DEF-456 fix" } } "ABC-123-x" "a..b" "GHI-9" =
      .ok (some "ABC-123") :=
  (c5_ticket_extraction_priority { logRangeCmd := { stdout := "DEF-456 fix" } }
    "ABC-123-x" "a..b" "GHI-9" ["DEF-456 fix"] rfl).2 "ABC-123" rfl

/-- Claim C6.  The claim says the local ref is used when
`origin/<target>` does not resolve.  The code disagrees: the probe
`git rev-parse origin/main` runs with `check=False`, so its nonzero exit
code (here 1: the ref does not resolve) raises nothing and the `except`
fallback is dead; `selectBranchRef` still returns "origin/main", while the
spec-modelled `specBranchRef` returns "main". -/
theorem c6_checkout_ref_no_fallback :
    selectBranchRef "main" { exitCode := 1 } = "origin/main" ∧
    specBranchRef "main" { exitCode := 1 } = "main" :=
  ⟨rfl, rfl⟩

/-- Claim C7.  At the existing-branch prompt (the derived name
`feature/<jira>-<target with / replaced by _>` exists): choice "replace"
issues the local-branch deletion and returns the exact derived name;
choice "disambiguate" returns the timestamp-suffixed name, which differs
from the derived name whatever the timestamp is; choice "abort" removes
the just-created worktree (no registration, no directory) and raises
`typer.Exit(code=1)`. -/
theorem c7_existing_branch_prompt (env : Env) (target_branch jira_id : String) (st : St)
    (hadd : cmdOk env.worktreeAddCmd)
    (hnonempty : env.worktreeNonEmpty = true)
    (hblf : env.branchListCmd.found = true)
    (hblex : pyStrip env.branchListCmd.stdout ≠ "") :
    (env.branchChoice = .replace → cmdOk env.switchCmd → cmdOk env.showCurrentCmd →
      pyStrip env.showCurrentCmd.stdout =
        "feature/" ++ jira_id ++ "-" ++ pyReplaceChar '/' '_' target_branch →
      (_setup_worktree env target_branch jira_id st).1 =
        .ok ("feature/" ++ jira_id ++ "-" ++ pyReplaceChar '/' '_' target_branch) ∧
      (_setup_worktree env target_branch jira_id st).2.fs.branchDeleteIssued = true) ∧
    (env.branchChoice = .unique → cmdOk env.switchCmd → cmdOk env.showCurrentCmd →
      pyStrip env.showCurrentCmd.stdout =
        "feature/" ++ jira_id ++ "-" ++ pyReplaceChar '/' '_' target_branch ++ "-" ++
          env.timestampA →
      (_setup_worktree env target_branch jira_id st).1 =
        .ok ("feature/" ++ jira_id ++ "-" ++ pyReplaceChar '/' '_' target_branch ++ "-" ++
          env.timestampA) ∧
      ("feature/" ++ jira_id ++ "-" ++ pyReplaceChar '/' '_' target_branch ++ "-" ++
          env.timestampA) ≠
        "feature/" ++ jira_id ++ "-" ++ pyReplaceChar '/' '_' target_branch) ∧
    (env.branchChoice = .abortChoice → cmdOk env.abortRemoveCmd →
      (_setup_worktree env target_branch jira_id st).1 = .error (.typerExit 1) ∧
      (_setup_worktree env target_branch jira_id st).2.fs.wtRegistered = false ∧
      (_setup_worktree env target_branch jira_id st).2.fs.wtDirExists = false) := by
  refine ⟨?_, ?_, ?_⟩
  · intro hch hswitch hshowok hshow
    unfold _setup_worktree verifyBranch
    cases hdir : st.fs.wtDirExists <;>
      simp [hdir, hch, hnonempty, hblex, hshow,
            run_command_ok _ _ hadd.1 hadd.2, run_command_checkfalse_ok _ hblf,
            run_command_ok _ _ hswitch.1 hswitch.2,
            run_command_ok _ _ hshowok.1 hshowok.2]
  · intro hch hswitch hshowok hshow
    constructor
    · unfold _setup_worktree verifyBranch
      cases hdir : st.fs.wtDirExists <;>
        simp [hdir, hch, hnonempty, hblex, hshow,
              run_command_ok _ _ hadd.1 hadd.2, run_command_checkfalse_ok _ hblf,
              run_command_ok _ _ hswitch.1 hswitch.2,
              run_command_ok _ _ hshowok.1 hshowok.2]
    · exact dash_append_ne _ _
  · intro hch habort
    unfold _setup_worktree
    cases hdir : st.fs.wtDirExists <;>
      simp [hdir, hch, hnonempty, hblex, habort.1, habort.2,
            run_command_ok _ _ hadd.1 hadd.2, run_command_checkfalse_ok _ hblf]

/-- Claim C7, witness: the "replace" branch at concrete inputs — derived
name `feature/ABC-1-main` already exists, the prompt answer is "1". -/
theorem c7_existing_branch_prompt_witness :
    (_setup_worktree { branchListCmd := { stdout := "feature/ABC-1-main" },
                       branchChoice := .replace,
                       showCurrentCmd := { stdout := "feature/ABC-1-main" } }
      "main" "ABC-1" {}).1 = .ok "feature/ABC-1-main" ∧
    (_setup_worktree { branchListCmd := { stdout := "feature/ABC-1-main" },
                       branchChoice := .replace,
                       showCurrentCmd := { stdout := "feature/ABC-1-main" } }
      "main" "ABC-1" {}).2.fs.branchDeleteIssued = true := by
  have h := (c7_existing_branch_prompt
    { branchListCmd := { stdout := "feature/ABC-1-main" }, branchChoice := .replace,
      showCurrentCmd := { stdout := "feature/ABC-1-main" } }
    "main" "ABC-1" {} ⟨rfl, rfl⟩ rfl rfl (by decide)).1 rfl ⟨rfl, rfl⟩ ⟨rfl, rfl⟩ (by decide)
  exact h

/-- Claim C8.  When the dry-run check fails and the user picks the 3-way
merge option, the patch-application outcome is `USER_WILL_RESOLVE` no
matter what `git apply --3way` and the conflict listing do — the theorem
places no assumption on `threeWayCmd` or `conflictListCmd` — so the
automatic commit and push are never reached: zero commits, nothing
pushed, and the worktree and patch file are retained. -/
theorem c8_threeway_always_user_will_resolve (env : Env) (src eff j : String)
    (commits : List String)
    (hroot : cmdOk env.revParseToplevel)
    (hres : _resolve_source_branch env = .ok src)
    (hneq : src ≠ env.target)
    (heff : eff = if pyHasSub src ".." = true then src else env.base ++ ".." ++ src)
    (hjira : prepareJira env src eff env.target = .ok (some j))
    (hcommits : get_commits_for_patch env eff env.target = .ok commits)
    (hconfirm : env.confirmProceed = true)
    (hdiff : cmdOk env.diffCmd)
    (hcontent : env.patchNonEmptyAfterDiff = true)
    (hadd : cmdOk env.worktreeAddCmd)
    (hnonempty : env.worktreeNonEmpty = true)
    (hblf : env.branchListCmd.found = true)
    (hblout : pyStrip env.branchListCmd.stdout = "")
    (hlsf : env.lsRemoteCmd.found = true)
    (hlsout : pyStrip env.lsRemoteCmd.stdout = "")
    (hswitch : cmdOk env.switchCmd)
    (hshowok : cmdOk env.showCurrentCmd)
    (hshow : pyStrip env.showCurrentCmd.stdout =
      "feature/" ++ j ++ "-" ++ pyReplaceChar '/' '_' env.target)
    (hcheckf : env.applyCheckCmd.found = true)
    (hcheckfail : env.applyCheckCmd.exitCode ≠ 0)
    (hchoice : env.conflictChoice = .threeway) :
    (applyCmd env).patchStatus = some .USER_WILL_RESOLVE ∧
    (applyCmd env).fs.commits = 0 ∧
    (applyCmd env).fs.pushedBranch = none ∧
    (applyCmd env).fs.wtDirExists = true ∧
    (applyCmd env).fs.wtRegistered = true ∧
    (applyCmd env).fs.patchExists = true ∧
    (applyCmd env).exitCode = 0 := by
  subst heff
  have h1 : get_git_repo_root env = .ok env.revParseToplevel.stdout := by
    unfold get_git_repo_root
    rw [run_command_ok _ _ hroot.1 hroot.2]
  obtain ⟨msg, hprep⟩ := prepare_ok env src _ env.target env.messageOverride {} j commits
    hjira hcommits
  have hsetup : _setup_worktree env env.target j
      { fs := { patchExists := true, patchEverCreated := true, patchHasContent := true,
                wtDirExists := true, wtDirEverCreated := true,
                confirmSnapshot := some (true, true) } } =
      (.ok ("feature/" ++ j ++ "-" ++ pyReplaceChar '/' '_' env.target),
       { fs := { patchExists := true, patchEverCreated := true, patchHasContent := true,
                 wtDirExists := true, wtDirEverCreated := true,
                 wtRegistered := true, wtEverRegistered := true,
                 confirmSnapshot := some (true, true) } }) := by
    unfold _setup_worktree verifyBranch
    rw [run_command_ok _ _ hadd.1 hadd.2,
        run_command_checkfalse_ok _ hblf,
        run_command_checkfalse_ok _ hlsf,
        run_command_ok _ _ hswitch.1 hswitch.2,
        run_command_ok _ _ hshowok.1 hshowok.2]
    simp [hnonempty, hblout, hlsout, hshow]
  have hbody : applyBody env =
      { res := .ok (),
        st := { fs := { patchExists := true, patchEverCreated := true, patchHasContent := true,
                        wtDirExists := true, wtDirEverCreated := true,
                        wtRegistered := true, wtEverRegistered := true,
                        confirmSnapshot := some (true, true) },
                keepGlobal := true },
        opCreated := true, cleanupOnExit := false, keepWorktree := true,
        patchStatus := some .USER_WILL_RESOLVE } := by
    unfold applyBody
    rw [hres]
    unfold applyResolved
    simp only [if_neg hneq, hprep]
    unfold applyAfterPrepare applyAfterConfirm _create_patch_file applyAfterConfirmContent
      _apply_patch_and_handle_conflicts
    rw [run_command_ok _ _ hdiff.1 hdiff.2]
    simp [hconfirm, hcontent, hsetup, run_command_fail env.applyCheckCmd hcheckf hcheckfail,
          menu_threeway env hchoice, applyAfterStatus]
  unfold applyCmd
  rw [h1, hbody]
  simp [applyFinally]

/-- Claim C8, witness: dry-run check fails (exit 1), choice "2", and the
3-way merge itself fails (exit 1) — the outcome is still
`USER_WILL_RESOLVE` and nothing is committed or pushed. -/
theorem c8_threeway_always_user_will_resolve_witness :
    (applyCmd { target := "main", sourceArg := some "ABC-123-x",
                applyCheckCmd := { exitCode := 1 },
                conflictChoice := .threeway,
                threeWayCmd := { exitCode := 1 },
                showCurrentCmd := { stdout := "feature/ABC-123-main" } }).patchStatus =
      some .USER_WILL_RESOLVE ∧
    (applyCmd { target := "main", sourceArg := some "ABC-123-x",
                applyCheckCmd := { exitCode := 1 },
                conflictChoice := .threeway,
                threeWayCmd := { exitCode := 1 },
                showCurrentCmd := { stdout := "feature/ABC-123-main" } }).fs.commits = 0 := by
  have h := c8_threeway_always_user_will_resolve
    { target := "main", sourceArg := some "ABC-123-x",
      applyCheckCmd := { exitCode := 1 }, conflictChoice := .threeway,
      threeWayCmd := { exitCode := 1 },
      showCurrentCmd := { stdout := "feature/ABC-123-main" } }
    "ABC-123-x" _ "ABC-123" [] ⟨rfl, rfl⟩ rfl (by decide) rfl rfl rfl rfl ⟨rfl, rfl⟩ rfl
    ⟨rfl, rfl⟩ rfl rfl (by decide) rfl (by decide) ⟨rfl, rfl⟩ ⟨rfl, rfl⟩ (by decide) rfl
    (by decide) rfl
  exact ⟨h.1, h.2.1⟩

/-- Claim C9.  The claim says that after a failed dry run and the "reject
files" choice the worktree stays on disk with `.rej` files and the patch
file is kept.  The code disagrees exactly when a hunk is rejected:
`git apply --reject` then exits nonzero (here 1), and since the call uses
the default `check=True` it raises `ShellCommandError` from inside the
conflict handler; `patch_status` is never assigned, so the `finally`
block removes the worktree (with the `.rej` files inside it) and deletes
the patch file, and the process exits 0. -/
theorem c9_reject_failure_destroys_worktree :
    (applyCmd { target := "release", sourceArg := some "feature/XYZ-7-fix",
                applyCheckCmd := { exitCode := 1 },
                conflictChoice := .reject,
                rejectCmd := { exitCode := 1 },
                showCurrentCmd := { stdout := "feature/XYZ-7-release" } }).fs.wtEverRegistered =
      true ∧
    (applyCmd { target := "release", sourceArg := some "feature/XYZ-7-fix",
                applyCheckCmd := { exitCode := 1 },
                conflictChoice := .reject,
                rejectCmd := { exitCode := 1 },
                showCurrentCmd := { stdout := "feature/XYZ-7-release" } }).fs.wtDirExists =
      false ∧
    (applyCmd { target := "release", sourceArg := some "feature/XYZ-7-fix",
                applyCheckCmd := { exitCode := 1 },
                conflictChoice := .reject,
                rejectCmd := { exitCode := 1 },
                showCurrentCmd := { stdout := "feature/XYZ-7-release" } }).fs.wtRegistered =
      false ∧
    (applyCmd { target := "release", sourceArg := some "feature/XYZ-7-fix",
                applyCheckCmd := { exitCode := 1 },
                conflictChoice := .reject,
                rejectCmd := { exitCode := 1 },
                showCurrentCmd := { stdout := "feature/XYZ-7-release" } }).fs.rejOnDisk =
      false ∧
    (applyCmd { target := "release", sourceArg := some "feature/XYZ-7-fix",
                applyCheckCmd := { exitCode := 1 },
                conflictChoice := .reject,
                rejectCmd := { exitCode := 1 },
                showCurrentCmd := { stdout := "feature/XYZ-7-release" } }).fs.patchExists =
      false ∧
    (applyCmd { target := "release", sourceArg := some "feature/XYZ-7-fix",
                applyCheckCmd := { exitCode := 1 },
                conflictChoice := .reject,
                rejectCmd := { exitCode := 1 },
                showCurrentCmd := { stdout := "feature/XYZ-7-release" } }).exitCode = 0 :=
  ⟨rfl, rfl, rfl, rfl, rfl, rfl⟩

/-- Claim C10.  The `mkdtemp` directory and the empty patch file both
exist at the moment the commit-message confirmation prompt is shown
(`confirmSnapshot = some (true, true)`), both had been created
(`...EverCreated = true`), and when the user declines, both are deleted
before the process exits with code 0, leaving no artifacts. -/
theorem c10_declined_confirmation_no_artifacts (env : Env) (src eff j : String)
    (commits : List String)
    (hroot : cmdOk env.revParseToplevel)
    (hres : _resolve_source_branch env = .ok src)
    (hneq : src ≠ env.target)
    (heff : eff = if pyHasSub src ".." = true then src else env.base ++ ".." ++ src)
    (hjira : prepareJira env src eff env.target = .ok (some j))
    (hcommits : get_commits_for_patch env eff env.target = .ok commits)
    (hdecline : env.confirmProceed = false) :
    (applyCmd env).fs.confirmSnapshot = some (true, true) ∧
    (applyCmd env).fs.patchEverCreated = true ∧
    (applyCmd env).fs.wtDirEverCreated = true ∧
    (applyCmd env).fs.patchExists = false ∧
    (applyCmd env).fs.wtDirExists = false ∧
    (applyCmd env).fs.wtEverRegistered = false ∧
    (applyCmd env).exitCode = 0 := by
  subst heff
  have h1 : get_git_repo_root env = .ok env.revParseToplevel.stdout := by
    unfold get_git_repo_root
    rw [run_command_ok _ _ hroot.1 hroot.2]
  obtain ⟨msg, hprep⟩ := prepare_ok env src _ env.target env.messageOverride {} j commits
    hjira hcommits
  have hbody : applyBody env =
      { res := .error (.typerExit 0),
        st := { fs := { patchEverCreated := true, wtDirEverCreated := true,
                        confirmSnapshot := some (true, true) } },
        opCreated := true, cleanupOnExit := false, keepWorktree := false,
        patchStatus := none } := by
    unfold applyBody
    rw [hres]
    unfold applyResolved
    simp only [if_neg hneq, hprep]
    unfold applyAfterPrepare
    simp [hdecline]
  unfold applyCmd
  rw [h1, hbody]
  simp [applyFinally]

/-- Claim C10, witness: source "ABC-1-x", target "main", the user answers
"no" at the confirmation prompt. -/
theorem c10_declined_confirmation_no_artifacts_witness :
    (applyCmd { target := "main", sourceArg := some "ABC-1-x",
                confirmProceed := false }).fs.confirmSnapshot = some (true, true) ∧
    (applyCmd { target := "main", sourceArg := some "ABC-1-x",
                confirmProceed := false }).fs.patchExists = false ∧
    (applyCmd { target := "main", sourceArg := some "ABC-1-x",
                confirmProceed := false }).exitCode = 0 := by
  have h := c10_declined_confirmation_no_artifacts
    { target := "main", sourceArg := some "ABC-1-x", confirmProceed := false }
    "ABC-1-x" _ "ABC-1" [] ⟨rfl, rfl⟩ rfl (by decide) rfl rfl rfl rfl
  exact ⟨h.1, h.2.2.2.1, h.2.2.2.2.2.2⟩

end GitPort
